import Mathlib

/-!
Verification of the mochi-mcp server (an MCP bridge to the Mochi Cards REST
API) against its natural-language specification. The definitions below are a
shallow embedding of the TypeScript source: the response-handling tail of
MochiClient.request (src/client.ts), the module-global client slot
(setMochiClient / getMochiClient), the tool handlers of src/tools/cards.ts,
src/tools/decks.ts and src/tools/templates.ts, and the POST /message route of
the hand-rolled SSE transport in src/worker.ts.
-/

namespace MochiMCP

/-- JSON values, as produced by response.json() / JSON.parse and consumed by
JSON.stringify. Objects keep their fields as an ordered association list. -/
inductive Json where
  | null : Json
  | bool (b : Bool) : Json
  | num (n : Int) : Json
  | str (s : String) : Json
  | arr (xs : List Json) : Json
  | obj (fields : List (String × Json)) : Json

/-- Escaping of quote and backslash characters inside a JSON string literal,
as JSON.stringify performs it on the strings appearing in error payloads. -/
def jsEscapeList : List Char → String
  | [] => ""
  | c :: cs =>
    (if c = '"' then "\\\"" else if c = '\\' then "\\\\" else String.singleton c) ++ jsEscapeList cs

/-- String escaping entry point used by the stringifier. -/
def jsEscape (s : String) : String := jsEscapeList s.data

mutual

/-- Model of the platform builtin JSON.stringify restricted to the Json type
above (compact form; the pretty-printing indent argument only inserts
whitespace and is not modelled). -/
def jsStringify : Json → String
  | .null => "null"
  | .bool b => cond b "true" "false"
  | .num n => toString n
  | .str s => "\"" ++ jsEscape s ++ "\""
  | .arr xs => "[" ++ jsStringifyList xs ++ "]"
  | .obj fs => "\x7b" ++ jsStringifyFields fs ++ "\x7d"

/-- Stringification of array elements, comma separated. -/
def jsStringifyList : List Json → String
  | [] => ""
  | [x] => jsStringify x
  | x :: y :: xs => jsStringify x ++ "," ++ jsStringifyList (y :: xs)

/-- Stringification of object fields, comma separated. -/
def jsStringifyFields : List (String × Json) → String
  | [] => ""
  | [(k, v)] => "\"" ++ jsEscape k ++ "\":" ++ jsStringify v
  | (k, v) :: f :: fs =>
    "\"" ++ jsEscape k ++ "\":" ++ jsStringify v ++ "," ++ jsStringifyFields (f :: fs)

end

/-- Errors thrown by the client and handlers: mochiApiError embeds the
MochiApiError class of src/client.ts (statusCode, errors payload, message);
jsError embeds a plain JavaScript Error (as thrown by getMochiClient when the
client was never initialized). -/
inductive JsThrown where
  | mochiApiError (statusCode : Nat) (errors : Json) (message : String)
  | jsError (message : String)

/-- An upstream HTTP response as observed by MochiClient.request:
status code, status text, whether the content-length header is the string "0",
and the result of response.json() (none when parsing the body throws). -/
structure HttpResponse where
  status : Nat
  statusText : String
  contentLengthZero : Bool
  body : Option Json

/-- Embeds the response.ok getter of the fetch API: status in the range
200 to 299. -/
def responseOk (r : HttpResponse) : Prop := 200 ≤ r.status ∧ r.status < 300

instance (r : HttpResponse) : Decidable (responseOk r) := by
  unfold responseOk
  exact inferInstance

/-- The synthetic rate-limit error payload built at src/client.ts lines
327 to 331. -/
def rateLimitErrors : Json :=
  Json.obj [("errors", Json.arr [Json.str "Rate limited. Please wait before making another request."])]

/-- The coalesced error detail of the expression errorData.errors ?? data of
src/client.ts line 358 for a non-null parsed body: the errors field of the
body when it is present and not null, else the whole body (property access on
a string, number, boolean or array yields undefined, which the coalescing
operator replaces by data). Only defined behaviour for non-null bodies: the
null case throws and is handled by errorsAccess below. -/
def errorsCoalesce (data : Json) : Json :=
  match data with
  | .obj fields =>
    match fields.lookup "errors" with
    | some Json.null => data
    | some v => v
    | none => data
  | _ => data

/-- Embeds the full evaluation of errorData.errors ?? data of src/client.ts
line 358: when the parsed body is the JSON literal null, the property access
errorData.errors throws a TypeError (a plain engine error, not a
MochiApiError; the exact message text is engine dependent and modelled by a
fixed representative); otherwise it yields the coalesced detail. -/
def errorsAccess (data : Json) : Except JsThrown Json :=
  match data with
  | Json.null =>
    .error (.jsError "TypeError: Cannot read properties of null (reading errors)")
  | _ => .ok (errorsCoalesce data)

/-- Embeds the response-handling tail of MochiClient.request (src/client.ts
lines 325 to 363): the 429 short-circuit, the 204 / zero-length no-content
case, and the JSON-parse dispatch on response.ok. Resolving with no value
(undefined) is modelled as .ok none. In the parse-success non-2xx branch the
try block has already ended, so a TypeError raised by errorsAccess on a
JSON-null body escapes uncaught instead of becoming a MochiApiError. -/
def handleResponse (r : HttpResponse) : Except JsThrown (Option Json) :=
  if r.status = 429 then
    .error (.mochiApiError 429 rateLimitErrors "Rate limited by Mochi API")
  else if r.status = 204 ∨ r.contentLengthZero = true then
    .ok none
  else
    match r.body with
    | none =>
      if responseOk r then .ok none
      else
        .error (.mochiApiError r.status
          (Json.obj [("errors", Json.arr [Json.str r.statusText])])
          ("HTTP " ++ toString r.status ++ ": " ++ r.statusText))
    | some data =>
      if responseOk r then .ok (some data)
      else
        match errorsAccess data with
        | .error e => .error e
        | .ok detail =>
          .error (.mochiApiError r.status detail
            ("HTTP " ++ toString r.status ++ ": " ++ jsStringify detail))

/-- The MochiClient of src/client.ts, identified by the API key it was
constructed from (the derived Basic authentication header is a pure function
of the key and carries no extra state). -/
structure MochiClient where
  apiKey : String
deriving DecidableEq

/-- Embeds the createMochiClient factory of src/client.ts. -/
def createMochiClient (apiKey : String) : MochiClient := ⟨apiKey⟩

/-- Embeds setMochiClient of src/client.ts: overwrites the module-global
clientInstance slot, whatever its previous value. -/
def setMochiClient (c : MochiClient) (_s : Option MochiClient) : Option MochiClient := some c

/-- Embeds getMochiClient of src/client.ts: throws a plain Error when the slot
was never set, else returns the stored client. -/
def getMochiClient (s : Option MochiClient) : Except JsThrown MochiClient :=
  match s with
  | none => .error (.jsError "MochiClient not initialized. Call setMochiClient() first.")
  | some c => .ok c

/-- Embeds the client-slot effect of createServer in src/worker.ts lines 92
to 109: each call constructs a client from the environment API key and stores
it via setMochiClient, overwriting any previous client. -/
def createServer (apiKey : String) (s : Option MochiClient) : Option MochiClient :=
  setMochiClient (createMochiClient apiKey) s

/-- The client-slot state after a sequence of createServer calls (one per new
SSE session), starting from a given slot state. -/
def runSessions (init : Option MochiClient) (keys : List String) : Option MochiClient :=
  keys.foldl (fun s k => createServer k s) init

/-- A tool response as returned by the handlers: a list of text content
blocks (none models a JavaScript undefined text value) and the isError flag
(absent in the source success objects, modelled as false). -/
structure ToolResponse where
  content : List (Option String)
  isError : Bool
deriving DecidableEq

/-- The error response every tool handler builds from a caught MochiApiError:
single text block "Error <status>: <message>" with isError true. -/
def mochiErrorResponse (statusCode : Nat) (message : String) : ToolResponse :=
  ⟨[some ("Error " ++ toString statusCode ++ ": " ++ message)], true⟩

/-- Embeds the uniform catch block of every tool handler: a MochiApiError is
converted to an error-marked tool response, any other thrown value is
rethrown. -/
def catchMochi (r : Except JsThrown ToolResponse) : Except JsThrown ToolResponse :=
  match r with
  | .error (.mochiApiError statusCode _ message) => .ok (mochiErrorResponse statusCode message)
  | other => other

/-- The text block of a success response: JSON.stringify of the client result,
which is undefined (none) when the client resolved with no value. -/
def stringifyResult : Option Json → Option String
  | none => none
  | some j => some (jsStringify j)

/-- Embeds the list_cards handler of src/tools/cards.ts, parameterized by the
global client slot and by the upstream HTTP response its client call
observes. -/
def list_cards_handler (s : Option MochiClient) (r : HttpResponse) : Except JsThrown ToolResponse :=
  catchMochi
    (match getMochiClient s with
     | .error e => .error e
     | .ok _ =>
       match handleResponse r with
       | .error e => .error e
       | .ok result => .ok ⟨[stringifyResult result], false⟩)

/-- Embeds the delete_card handler of src/tools/cards.ts. -/
def delete_card_handler (s : Option MochiClient) (id : String) (r : HttpResponse) :
    Except JsThrown ToolResponse :=
  catchMochi
    (match getMochiClient s with
     | .error e => .error e
     | .ok _ =>
       match handleResponse r with
       | .error e => .error e
       | .ok _ => .ok ⟨[some ("Card " ++ id ++ " deleted successfully.")], false⟩)

/-- Embeds the delete_deck handler of src/tools/decks.ts lines 153 to 176. -/
def delete_deck_handler (s : Option MochiClient) (id : String) (r : HttpResponse) :
    Except JsThrown ToolResponse :=
  catchMochi
    (match getMochiClient s with
     | .error e => .error e
     | .ok _ =>
       match handleResponse r with
       | .error e => .error e
       | .ok _ => .ok ⟨[some ("Deck " ++ id ++ " deleted successfully.")], false⟩)

/-- Embeds the delete_attachment handler of src/tools/cards.ts: its success
text is "Attachment <filename> deleted from card <card-id>.". -/
def delete_attachment_handler (s : Option MochiClient) (cardId filename : String)
    (r : HttpResponse) : Except JsThrown ToolResponse :=
  catchMochi
    (match getMochiClient s with
     | .error e => .error e
     | .ok _ =>
       match handleResponse r with
       | .error e => .error e
       | .ok _ =>
         .ok ⟨[some ("Attachment " ++ filename ++ " deleted from card " ++ cardId ++ ".")], false⟩)

/-- Embeds the rest-destructuring const (brace id, ...data brace) = params of
the update_card and update_deck handlers: every own property except id is
kept, in order. -/
def restWithoutId (params : List (String × Json)) : List (String × Json) :=
  params.filter (fun kv => kv.1 != "id")

/-- Embeds the update_card handler forwarding (src/tools/cards.ts lines 122 to
127): the id field selects the URL path /cards/<id> and the remaining fields
form the POST body. Returns none when the validated params lack a string id,
which the zod schema rules out. -/
def update_card_call (params : List (String × Json)) :
    Option (String × List (String × Json)) :=
  match params.lookup "id" with
  | some (Json.str i) => some ("/cards/" ++ i, restWithoutId params)
  | _ => none

/-- Embeds the update_deck handler forwarding (src/tools/decks.ts lines 130 to
135), identical to update_card with the /decks/ path. -/
def update_deck_call (params : List (String × Json)) :
    Option (String × List (String × Json)) :=
  match params.lookup "id" with
  | some (Json.str i) => some ("/decks/" ++ i, restWithoutId params)
  | _ => none

/-- One parameter of a tool registration shape: its name, whether it is
declared optional, and the min / max bounds when the zod declaration carries
numeric constraints. -/
structure FieldSpec where
  name : String
  fieldOptional : Bool
  numMin : Option Nat
  numMax : Option Nat
deriving DecidableEq

/-- The shared PaginatedRequestSchema of src/schemas.ts lines 7 to 10:
optional bookmark cursor, optional limit bounded to 1..100. -/
def PaginatedRequestSchemaFields : List FieldSpec :=
  [⟨"bookmark", true, none, none⟩, ⟨"limit", true, some 1, some 100⟩]

/-- The inline parameter shape of the list_cards tool registration in
src/tools/cards.ts: deck-id, limit (1..100) and bookmark, all optional. -/
def list_cards_toolFields : List FieldSpec :=
  [⟨"deck-id", true, none, none⟩, ⟨"limit", true, some 1, some 100⟩, ⟨"bookmark", true, none, none⟩]

/-- The inline parameter shape of the list_decks tool registration in
src/tools/decks.ts lines 21 to 27: only the optional bookmark cursor. -/
def list_decks_toolFields : List FieldSpec :=
  [⟨"bookmark", true, none, none⟩]

/-- The inline parameter shape of the list_templates tool registration in
src/tools/templates.ts lines 51 to 57: only the optional bookmark cursor. -/
def list_templates_toolFields : List FieldSpec :=
  [⟨"bookmark", true, none, none⟩]

/-- JavaScript truthiness of an optional string: undefined and the empty
string are falsy. -/
def jsTruthy : Option String → Bool
  | none => false
  | some s => s != ""

/-- JavaScript truthiness of an optional number: undefined and 0 are falsy. -/
def numTruthy : Option Nat → Bool
  | none => false
  | some n => n != 0

/-- Embeds the query construction of MochiClient.listCards (src/client.ts
lines 388 to 400): the deck-id, limit and bookmark search parameters are set,
in that order, when truthy. -/
def listCardsQueryPairs (deckId : Option String) (limit : Option Nat)
    (bookmark : Option String) : List (String × String) :=
  (if jsTruthy deckId then [("deck-id", deckId.getD "")] else []) ++
  (if numTruthy limit then [("limit", toString (limit.getD 0))] else []) ++
  (if jsTruthy bookmark then [("bookmark", bookmark.getD "")] else [])

/-- Embeds the query construction of MochiClient.listDecks: only bookmark. -/
def listDecksQueryPairs (bookmark : Option String) : List (String × String) :=
  if jsTruthy bookmark then [("bookmark", bookmark.getD "")] else []

/-- Embeds the query construction of MochiClient.listTemplates: only
bookmark. -/
def listTemplatesQueryPairs (bookmark : Option String) : List (String × String) :=
  if jsTruthy bookmark then [("bookmark", bookmark.getD "")] else []

/-- The validated parameters of the add_attachment tool (src/tools/cards.ts):
card-id, optional file-path, optional base64-data, optional content-type, and
the required filename. -/
structure AddAttachmentParams where
  cardId : String
  filePath : Option String
  base64Data : Option String
  contentTypeParam : Option String
  filename : String
deriving DecidableEq

/-- The outcome of the branch selection inside the add_attachment handler:
either an early error response returned before any client call, or an upload
via client.addAttachment carrying the blob bytes, the blob MIME type and the
filename. -/
inductive AttachStep where
  | respond (resp : ToolResponse) : AttachStep
  | upload (cardId : String) (bytes : List Nat) (blobType : String) (filename : String) : AttachStep
deriving DecidableEq

/-- Embeds the branch selection of the add_attachment handler
(src/tools/cards.ts lines 183 to 223): truthiness test on base64-data first
(decoding via the platform atob builtin, blob type content-type or
application/octet-stream), then truthiness test on file-path (guarded by Bun
availability and file existence; a blob built from an ArrayBuffer has the
empty MIME type), else the must-be-provided error. The runtime is
parameterized by Bun availability, file existence, file contents and the atob
decoder. -/
def add_attachment_action (bunAvailable : Bool) (fileExists : String → Bool)
    (fileBytes : String → List Nat) (atobBytes : String → List Nat)
    (p : AddAttachmentParams) : AttachStep :=
  if jsTruthy p.base64Data then
    .upload p.cardId (atobBytes (p.base64Data.getD ""))
      (p.contentTypeParam.getD "application/octet-stream") p.filename
  else if jsTruthy p.filePath then
    if bunAvailable = false then
      .respond ⟨[some "Error: file-path is not supported in Cloudflare Workers. Use base64-data instead."], true⟩
    else if fileExists (p.filePath.getD "") = false then
      .respond ⟨[some ("Error: File not found: " ++ p.filePath.getD "")], true⟩
    else
      .upload p.cardId (fileBytes (p.filePath.getD "")) "" p.filename
  else
    .respond ⟨[some "Error: Either file-path or base64-data must be provided"], true⟩

/-- The add_attachment handler up to its upload decision: first the
getMochiClient call at the top of the handler (which throws when the slot is
empty), then the branch selection. -/
def add_attachment_handler (s : Option MochiClient) (bunAvailable : Bool)
    (fileExists : String → Bool) (fileBytes atobBytes : String → List Nat)
    (p : AddAttachmentParams) : Except JsThrown AttachStep :=
  match getMochiClient s with
  | .error e => .error e
  | .ok _ => .ok (add_attachment_action bunAvailable fileExists fileBytes atobBytes p)

/-- A POST request to the /message route: the X-Session-Id header (none when
absent) and the result of parsing the request body as JSON (error carries the
parse failure message). -/
structure MessageReq where
  sessionHeader : Option String
  body : Except String Json

/-- The observable outcome of the /message route: HTTP status, JSON response
body, the list of (session id, message) deliveries into session transports,
and the session map after the request. -/
structure MessageOutcome where
  status : Nat
  responseBody : Json
  forwards : List (String × Json)
  sessionsAfter : List (String × Nat)

/-- Embeds the POST /message route of src/worker.ts lines 186 to 225. The
session map associates session ids to server-instance tags. A missing (or
empty, hence falsy) header yields 400; an unknown session id yields 404; a
known session has the parsed message forwarded into exactly that session via
transport.handleMessage and a success body returned; a body parse failure
yields 500. The session map is never modified by this route. -/
def handleMessagePost (sessions : List (String × Nat)) (req : MessageReq) : MessageOutcome :=
  if jsTruthy req.sessionHeader = false then
    ⟨400, Json.obj [("error", Json.str "Missing X-Session-Id header")], [], sessions⟩
  else
    match sessions.lookup (req.sessionHeader.getD "") with
    | none => ⟨404, Json.obj [("error", Json.str "Session not found or expired")], [], sessions⟩
    | some _ =>
      match req.body with
      | .ok msg =>
        ⟨200, Json.obj [("success", Json.bool true)], [(req.sessionHeader.getD "", msg)], sessions⟩
      | .error errMessage =>
        ⟨500, Json.obj [("error", Json.str "Failed to process message"),
          ("details", Json.str errMessage)], [], sessions⟩

/-! Helper lemmas about the rest-destructuring model. -/

/-- The id key never survives restWithoutId. -/
theorem lookup_restWithoutId_id (l : List (String × Json)) :
    (restWithoutId l).lookup "id" = none := by
  induction l with
  | nil => rfl
  | cons p t ih =>
    obtain ⟨a, b⟩ := p
    by_cases h : a = "id"
    · subst h
      have hdrop : restWithoutId (("id", b) :: t) = restWithoutId t := by
        simp [restWithoutId, List.filter_cons]
      rw [hdrop]
      exact ih
    · have hkeep : restWithoutId ((a, b) :: t) = (a, b) :: restWithoutId t := by
        simp [restWithoutId, List.filter_cons, bne_iff_ne, h]
      have hb : ("id" == a) = false := beq_eq_false_iff_ne.mpr (Ne.symm h)
      rw [hkeep]
      simpa [List.lookup, hb] using ih

/-- Lookup of any key other than id is unchanged by restWithoutId. -/
theorem lookup_restWithoutId_ne (l : List (String × Json)) (k : String) (hk : k ≠ "id") :
    (restWithoutId l).lookup k = l.lookup k := by
  induction l with
  | nil => rfl
  | cons p t ih =>
    obtain ⟨a, b⟩ := p
    by_cases h : a = "id"
    · subst h
      have hdrop : restWithoutId (("id", b) :: t) = restWithoutId t := by
        simp [restWithoutId, List.filter_cons]
      have hb : (k == "id") = false := beq_eq_false_iff_ne.mpr hk
      rw [hdrop]
      simpa [List.lookup, hb] using ih
    · have hkeep : restWithoutId ((a, b) :: t) = (a, b) :: restWithoutId t := by
        simp [restWithoutId, List.filter_cons, bne_iff_ne, h]
      rw [hkeep]
      by_cases hka : k = a
      · subst hka
        simp [List.lookup]
      · have hb : (k == a) = false := beq_eq_false_iff_ne.mpr hka
        simpa [List.lookup, hb] using ih

/-- C1: a 429 upstream response makes MochiClient.request fail with the
synthetic rate-limit MochiApiError (status 429) without touching the response
body, and a list_cards invocation observing such a response returns an
error-marked tool response whose single text block begins with
"Error 429:". -/
theorem c1_rate_limited (r : HttpResponse) (c : MochiClient) (h : r.status = 429) :
    handleResponse r = .error (.mochiApiError 429 rateLimitErrors "Rate limited by Mochi API") ∧
    ∃ t, list_cards_handler (some c) r = .ok ⟨[some t], true⟩ ∧
      (∃ rest, t = "Error 429:" ++ rest) ∧
      t = "Error 429: Rate limited by Mochi API" := by
  have hr : handleResponse r =
      .error (.mochiApiError 429 rateLimitErrors "Rate limited by Mochi API") := by
    simp [handleResponse, h]
  refine ⟨hr, "Error 429: Rate limited by Mochi API", ?_,
    ⟨" Rate limited by Mochi API", by decide⟩, rfl⟩
  simp only [list_cards_handler, getMochiClient, hr, catchMochi, mochiErrorResponse]
  exact congrArg Except.ok (by decide)

/-- Witness for C1 at a concrete 429 response with an unreadable body. -/
theorem c1_rate_limited_witness :
    (HttpResponse.mk 429 "Too Many Requests" true none).status = 429 ∧
    (handleResponse ⟨429, "Too Many Requests", true, none⟩ =
      .error (.mochiApiError 429 rateLimitErrors "Rate limited by Mochi API") ∧
     ∃ t, list_cards_handler (some ⟨"key"⟩) ⟨429, "Too Many Requests", true, none⟩ =
        .ok ⟨[some t], true⟩ ∧
      (∃ rest, t = "Error 429:" ++ rest) ∧
      t = "Error 429: Rate limited by Mochi API") :=
  ⟨rfl, c1_rate_limited ⟨429, "Too Many Requests", true, none⟩ ⟨"key"⟩ rfl⟩

/-- C2 counterexample: at a 204 response the client resolves with no value,
but the delete_attachment tool text is "Attachment pic.png deleted from card
c1.", which is not of the form "<Entity> <id> deleted successfully."; and a
429 response with a zero-length body does not resolve with no value (the rate
limit check short-circuits first). -/
theorem c2_counterexample :
    handleResponse ⟨204, "No Content", false, none⟩ = .ok none ∧
    delete_attachment_handler (some ⟨"key"⟩) "c1" "pic.png" ⟨204, "No Content", false, none⟩ =
      .ok ⟨[some "Attachment pic.png deleted from card c1."], false⟩ ∧
    "Attachment pic.png deleted from card c1." ≠ "Attachment pic.png deleted successfully." ∧
    "Attachment pic.png deleted from card c1." ≠ "Attachment c1 deleted successfully." ∧
    handleResponse ⟨429, "Too Many Requests", true, none⟩ ≠ .ok none := by
  refine ⟨rfl, rfl, by decide, by decide, ?_⟩
  simp [handleResponse]

/-- C2 amended: for every non-429 upstream response with status 204 or a
zero-length body, the client resolves with no value; delete_card and
delete_deck then respond "<Entity> <id> deleted successfully.", while
delete_attachment responds "Attachment <filename> deleted from card
<card-id>.". -/
theorem c2_amended_deletes (c : MochiClient) (r : HttpResponse)
    (cardId deckId attCard attName : String)
    (h429 : r.status ≠ 429) (hnc : r.status = 204 ∨ r.contentLengthZero = true) :
    handleResponse r = .ok none ∧
    delete_card_handler (some c) cardId r =
      .ok ⟨[some ("Card " ++ cardId ++ " deleted successfully.")], false⟩ ∧
    delete_deck_handler (some c) deckId r =
      .ok ⟨[some ("Deck " ++ deckId ++ " deleted successfully.")], false⟩ ∧
    delete_attachment_handler (some c) attCard attName r =
      .ok ⟨[some ("Attachment " ++ attName ++ " deleted from card " ++ attCard ++ ".")], false⟩ := by
  have hr : handleResponse r = .ok none := by
    simp [handleResponse, h429, hnc]
  refine ⟨hr, ?_, ?_, ?_⟩
  · simp [delete_card_handler, getMochiClient, hr, catchMochi]
  · simp [delete_deck_handler, getMochiClient, hr, catchMochi]
  · simp [delete_attachment_handler, getMochiClient, hr, catchMochi]

/-- Witness for the amended C2 at a concrete 204 response. -/
theorem c2_amended_deletes_witness :
    (HttpResponse.mk 204 "No Content" false none).status ≠ 429 ∧
    ((HttpResponse.mk 204 "No Content" false none).status = 204 ∨
      (HttpResponse.mk 204 "No Content" false none).contentLengthZero = true) ∧
    (handleResponse ⟨204, "No Content", false, none⟩ = .ok none ∧
     delete_card_handler (some ⟨"key"⟩) "card7" ⟨204, "No Content", false, none⟩ =
       .ok ⟨[some ("Card " ++ "card7" ++ " deleted successfully.")], false⟩ ∧
     delete_deck_handler (some ⟨"key"⟩) "deck7" ⟨204, "No Content", false, none⟩ =
       .ok ⟨[some ("Deck " ++ "deck7" ++ " deleted successfully.")], false⟩ ∧
     delete_attachment_handler (some ⟨"key"⟩) "card7" "a.png" ⟨204, "No Content", false, none⟩ =
       .ok ⟨[some ("Attachment " ++ "a.png" ++ " deleted from card " ++ "card7" ++ ".")], false⟩) :=
  ⟨by decide, Or.inl rfl,
    c2_amended_deletes ⟨"key"⟩ ⟨204, "No Content", false, none⟩ "card7" "deck7" "card7" "a.png"
      (by decide) (Or.inl rfl)⟩

/-- C3 counterexample: a 500 response whose body parses to the JSON literal
null makes request throw an uncaught TypeError (the property access
errorData.errors on null), not the claimed MochiApiError with the whole body
as detail, and the thrown error escapes the tool catch of a handler instead
of becoming a tool-error response. -/
theorem c3_counterexample :
    handleResponse ⟨500, "Internal Server Error", false, some Json.null⟩ =
      .error (.jsError "TypeError: Cannot read properties of null (reading errors)") ∧
    (∀ statusCode errors message,
      handleResponse ⟨500, "Internal Server Error", false, some Json.null⟩ ≠
        .error (.mochiApiError statusCode errors message)) ∧
    list_cards_handler (some ⟨"key"⟩) ⟨500, "Internal Server Error", false, some Json.null⟩ =
      .error (.jsError "TypeError: Cannot read properties of null (reading errors)") := by
  refine ⟨rfl, ?_, rfl⟩
  intro statusCode errors message h
  have := Except.error.inj h
  cases this

/-- C3 amended: for a non-429, non-empty response, request dispatches on JSON
parsing and response.ok: parse failure with a non-2xx status throws a
MochiApiError whose only detail is the status text; parse failure with a 2xx
status resolves with no value; parse success with a non-2xx status and a
non-null body throws a MochiApiError whose detail is the errors field of the
body when present and non-null, else the whole body; parse success with a
non-2xx status and a JSON-null body throws an uncaught TypeError, not a
MochiApiError; parse success with a 2xx status resolves with the body. -/
theorem c3_parse_dispatch (r : HttpResponse)
    (h429 : r.status ≠ 429) (h204 : r.status ≠ 204) (hlen : r.contentLengthZero = false) :
    (r.body = none → ¬ responseOk r →
      handleResponse r = .error (.mochiApiError r.status
        (Json.obj [("errors", Json.arr [Json.str r.statusText])])
        ("HTTP " ++ toString r.status ++ ": " ++ r.statusText))) ∧
    (r.body = none → responseOk r → handleResponse r = .ok none) ∧
    (∀ d, r.body = some d → ¬ responseOk r → d ≠ Json.null →
      handleResponse r = .error (.mochiApiError r.status (errorsCoalesce d)
        ("HTTP " ++ toString r.status ++ ": " ++ jsStringify (errorsCoalesce d)))) ∧
    (r.body = some Json.null → ¬ responseOk r →
      handleResponse r =
        .error (.jsError "TypeError: Cannot read properties of null (reading errors)") ∧
      ∀ statusCode errors message,
        handleResponse r ≠ .error (.mochiApiError statusCode errors message)) ∧
    (∀ d, r.body = some d → responseOk r → handleResponse r = .ok (some d)) := by
  refine ⟨?_, ?_, ?_, ?_, ?_⟩
  · intro hb hok
    simp [handleResponse, h429, h204, hlen, hb, hok]
  · intro hb hok
    simp [handleResponse, h429, h204, hlen, hb, hok]
  · intro d hb hok hnull
    have haccess : errorsAccess d = .ok (errorsCoalesce d) := by
      cases d <;> simp_all [errorsAccess]
    simp [handleResponse, h429, h204, hlen, hb, hok, haccess]
  · intro hb hok
    have hout : handleResponse r =
        .error (.jsError "TypeError: Cannot read properties of null (reading errors)") := by
      simp [handleResponse, h429, h204, hlen, hb, hok, errorsAccess]
    refine ⟨hout, ?_⟩
    intro statusCode errors message h
    rw [hout] at h
    have := Except.error.inj h
    cases this
  · intro d hb hok
    simp [handleResponse, h429, h204, hlen, hb, hok]

/-- Witness for the amended C3 at a concrete 500 response with an unparseable
body, and at a 500 response with an object body carrying an errors field. -/
theorem c3_parse_dispatch_witness :
    (HttpResponse.mk 500 "Internal Server Error" false none).status ≠ 429 ∧
    (HttpResponse.mk 500 "Internal Server Error" false none).status ≠ 204 ∧
    (HttpResponse.mk 500 "Internal Server Error" false none).contentLengthZero = false ∧
    (HttpResponse.mk 500 "Internal Server Error" false none).body = none ∧
    ¬ responseOk ⟨500, "Internal Server Error", false, none⟩ ∧
    handleResponse ⟨500, "Internal Server Error", false, none⟩ =
      .error (.mochiApiError 500
        (Json.obj [("errors", Json.arr [Json.str "Internal Server Error"])])
        ("HTTP " ++ toString 500 ++ ": " ++ "Internal Server Error")) ∧
    handleResponse ⟨500, "Internal Server Error", false,
        some (Json.obj [("errors", Json.str "boom")])⟩ =
      .error (.mochiApiError 500
        (errorsCoalesce (Json.obj [("errors", Json.str "boom")]))
        ("HTTP " ++ toString 500 ++ ": " ++
          jsStringify (errorsCoalesce (Json.obj [("errors", Json.str "boom")])))) :=
  ⟨by decide, by decide, rfl, rfl, by decide,
    (c3_parse_dispatch ⟨500, "Internal Server Error", false, none⟩
      (by decide) (by decide) rfl).1 rfl (by decide),
    (c3_parse_dispatch ⟨500, "Internal Server Error", false,
        some (Json.obj [("errors", Json.str "boom")])⟩
      (by decide) (by decide) rfl).2.2.1 (Json.obj [("errors", Json.str "boom")])
      rfl (by decide) (fun h => Json.noConfusion h)⟩

/-- C4 counterexample: the list_decks and list_templates tool registrations
do not accept a limit parameter at the tool boundary; only list_cards does. -/
theorem c4_counterexample :
    "limit" ∉ list_decks_toolFields.map FieldSpec.name ∧
    "limit" ∉ list_templates_toolFields.map FieldSpec.name ∧
    "limit" ∈ list_cards_toolFields.map FieldSpec.name := by
  refine ⟨?_, ?_, ?_⟩ <;> decide

/-- C4 amended: the shared pagination shape (optional bookmark cursor,
optional limit bounded to 1..100) is declared in the schema layer and the
list_cards registration accepts both fields, forwarding truthy values as
query parameters; the list_decks and list_templates registrations accept only
the bookmark cursor (no limit), and their client methods forward only the
bookmark. -/
theorem c4_amended_pagination (n : Nat) (b : String) (hn : 1 ≤ n) (hb : b ≠ "") :
    (⟨"bookmark", true, none, none⟩ : FieldSpec) ∈ PaginatedRequestSchemaFields ∧
    (⟨"limit", true, some 1, some 100⟩ : FieldSpec) ∈ PaginatedRequestSchemaFields ∧
    (⟨"limit", true, some 1, some 100⟩ : FieldSpec) ∈ list_cards_toolFields ∧
    (⟨"bookmark", true, none, none⟩ : FieldSpec) ∈ list_cards_toolFields ∧
    list_decks_toolFields.map FieldSpec.name = ["bookmark"] ∧
    list_templates_toolFields.map FieldSpec.name = ["bookmark"] ∧
    ("limit", toString n) ∈ listCardsQueryPairs none (some n) (some b) ∧
    ("bookmark", b) ∈ listCardsQueryPairs none (some n) (some b) ∧
    ("bookmark", b) ∈ listDecksQueryPairs (some b) ∧
    ("bookmark", b) ∈ listTemplatesQueryPairs (some b) := by
  have hn0 : n ≠ 0 := by omega
  refine ⟨by decide, by decide, by decide, by decide, by decide, by decide, ?_, ?_, ?_, ?_⟩
  · simp [listCardsQueryPairs, numTruthy, jsTruthy, hn0, hb]
  · simp [listCardsQueryPairs, numTruthy, jsTruthy, hn0, hb]
  · simp [listDecksQueryPairs, jsTruthy, hb]
  · simp [listTemplatesQueryPairs, jsTruthy, hb]

/-- Witness for the amended C4 at limit 5 and a concrete bookmark token. -/
theorem c4_amended_pagination_witness :
    1 ≤ 5 ∧ ("tok" : String) ≠ "" ∧
    (("limit", toString 5) ∈ listCardsQueryPairs none (some 5) (some "tok") ∧
     ("bookmark", "tok") ∈ listCardsQueryPairs none (some 5) (some "tok") ∧
     ("bookmark", "tok") ∈ listDecksQueryPairs (some "tok") ∧
     ("bookmark", "tok") ∈ listTemplatesQueryPairs (some "tok")) :=
  ⟨by decide, by decide,
    ((c4_amended_pagination 5 "tok" (by decide) (by decide)).2.2.2.2.2.2.1),
    ((c4_amended_pagination 5 "tok" (by decide) (by decide)).2.2.2.2.2.2.2.1),
    ((c4_amended_pagination 5 "tok" (by decide) (by decide)).2.2.2.2.2.2.2.2.1),
    ((c4_amended_pagination 5 "tok" (by decide) (by decide)).2.2.2.2.2.2.2.2.2)⟩

/-- C5: an add_attachment invocation supplying neither file-path nor
base64-data returns the error-marked must-be-provided response before any
client upload call, whatever the runtime capabilities. -/
theorem c5_neither_input (c : MochiClient) (bunAvailable : Bool)
    (fileExists : String → Bool) (fileBytes atobBytes : String → List Nat)
    (cardId filename : String) (ct : Option String) :
    add_attachment_handler (some c) bunAvailable fileExists fileBytes atobBytes
      ⟨cardId, none, none, ct, filename⟩ =
      .ok (.respond ⟨[some "Error: Either file-path or base64-data must be provided"], true⟩) ∧
    ∃ pre post, "Error: Either file-path or base64-data must be provided" =
      pre ++ "must be provided" ++ post := by
  refine ⟨?_, "Error: Either file-path or base64-data ", "", by decide⟩
  simp [add_attachment_handler, getMochiClient, add_attachment_action, jsTruthy]

/-- C6: an add_attachment invocation supplying a nonempty file-path and no
truthy base64-data either rejects with the Workers error naming base64-data
(when the Bun runtime is unavailable), rejects with a file-not-found error
(when the path does not exist), or uploads the full file bytes as a binary
payload. -/
theorem c6_file_path_branch (c : MochiClient) (fileExists : String → Bool)
    (fileBytes atobBytes : String → List Nat) (cardId filename fp : String)
    (b64 ct : Option String) (hb : jsTruthy b64 = false) (hfp : fp ≠ "") :
    (add_attachment_handler (some c) false fileExists fileBytes atobBytes
        ⟨cardId, some fp, b64, ct, filename⟩ =
      .ok (.respond ⟨[some "Error: file-path is not supported in Cloudflare Workers. Use base64-data instead."], true⟩) ∧
     ∃ pre post,
       "Error: file-path is not supported in Cloudflare Workers. Use base64-data instead." =
         pre ++ "base64-data" ++ post) ∧
    (fileExists fp = false →
      add_attachment_handler (some c) true fileExists fileBytes atobBytes
        ⟨cardId, some fp, b64, ct, filename⟩ =
      .ok (.respond ⟨[some ("Error: File not found: " ++ fp)], true⟩)) ∧
    (fileExists fp = true →
      add_attachment_handler (some c) true fileExists fileBytes atobBytes
        ⟨cardId, some fp, b64, ct, filename⟩ =
      .ok (.upload cardId (fileBytes fp) "" filename)) := by
  have hfpt : jsTruthy (some fp) = true := by
    simp [jsTruthy, hfp]
  refine ⟨⟨?_, "Error: file-path is not supported in Cloudflare Workers. Use ", " instead.",
    by decide⟩, ?_, ?_⟩
  · simp [add_attachment_handler, getMochiClient, add_attachment_action, hb, hfpt]
  · intro hex
    simp [add_attachment_handler, getMochiClient, add_attachment_action, hb, hfpt, hex]
  · intro hex
    simp [add_attachment_handler, getMochiClient, add_attachment_action, hb, hfpt, hex]

/-- Witness for C6 at a concrete path in a runtime with no files. -/
theorem c6_file_path_branch_witness :
    jsTruthy none = false ∧ ("/tmp/a.png" : String) ≠ "" ∧
    ((add_attachment_handler (some ⟨"key"⟩) false (fun _ => false) (fun _ => [])
        (fun _ => []) ⟨"c1", some "/tmp/a.png", none, none, "a.png"⟩ =
      .ok (.respond ⟨[some "Error: file-path is not supported in Cloudflare Workers. Use base64-data instead."], true⟩) ∧
      ∃ pre post,
        "Error: file-path is not supported in Cloudflare Workers. Use base64-data instead." =
          pre ++ "base64-data" ++ post) ∧
     add_attachment_handler (some ⟨"key"⟩) true (fun _ => false) (fun _ => [])
         (fun _ => []) ⟨"c1", some "/tmp/a.png", none, none, "a.png"⟩ =
       .ok (.respond ⟨[some ("Error: File not found: " ++ "/tmp/a.png")], true⟩) ∧
     add_attachment_handler (some ⟨"key"⟩) true (fun _ => true) (fun _ => [7, 8])
         (fun _ => []) ⟨"c1", some "/tmp/a.png", none, none, "a.png"⟩ =
       .ok (.upload "c1" [7, 8] "" "a.png")) :=
  ⟨rfl, by decide,
    (c6_file_path_branch ⟨"key"⟩ (fun _ => false) (fun _ => []) (fun _ => [])
      "c1" "a.png" "/tmp/a.png" none none rfl (by decide)).1,
    (c6_file_path_branch ⟨"key"⟩ (fun _ => false) (fun _ => []) (fun _ => [])
      "c1" "a.png" "/tmp/a.png" none none rfl (by decide)).2.1 rfl,
    (c6_file_path_branch ⟨"key"⟩ (fun _ => true) (fun _ => [7, 8]) (fun _ => [])
      "c1" "a.png" "/tmp/a.png" none none rfl (by decide)).2.2 rfl⟩

/-- C7: the update_card and update_deck handlers forward the validated
parameters with exactly the id field removed: id selects only the URL path,
never appears in the forwarded body, and the lookup of every other field in
the body agrees with the original parameters. -/
theorem c7_update_forwards_without_id (params : List (String × Json)) (i : String)
    (hid : params.lookup "id" = some (Json.str i)) :
    update_card_call params = some ("/cards/" ++ i, restWithoutId params) ∧
    update_deck_call params = some ("/decks/" ++ i, restWithoutId params) ∧
    (restWithoutId params).lookup "id" = none ∧
    (∀ kv ∈ restWithoutId params, kv.1 ≠ "id") ∧
    (∀ k, k ≠ "id" → (restWithoutId params).lookup k = params.lookup k) := by
  refine ⟨?_, ?_, lookup_restWithoutId_id params, ?_, ?_⟩
  · simp [update_card_call, hid]
  · simp [update_deck_call, hid]
  · intro kv hkv
    have := List.of_mem_filter hkv
    simpa [bne_iff_ne] using this
  · intro k hk
    exact lookup_restWithoutId_ne params k hk

/-- Witness for C7 at a concrete update payload. -/
theorem c7_update_forwards_without_id_witness :
    ([("id", Json.str "c1"), ("content", Json.str "hello")].lookup "id" =
      some (Json.str "c1")) ∧
    (update_card_call [("id", Json.str "c1"), ("content", Json.str "hello")] =
      some ("/cards/" ++ "c1",
        restWithoutId [("id", Json.str "c1"), ("content", Json.str "hello")]) ∧
     update_deck_call [("id", Json.str "c1"), ("content", Json.str "hello")] =
      some ("/decks/" ++ "c1",
        restWithoutId [("id", Json.str "c1"), ("content", Json.str "hello")]) ∧
     (restWithoutId [("id", Json.str "c1"), ("content", Json.str "hello")]).lookup "id" = none ∧
     (∀ kv ∈ restWithoutId [("id", Json.str "c1"), ("content", Json.str "hello")],
       kv.1 ≠ "id") ∧
     (∀ k, k ≠ "id" →
       (restWithoutId [("id", Json.str "c1"), ("content", Json.str "hello")]).lookup k =
         [("id", Json.str "c1"), ("content", Json.str "hello")].lookup k)) :=
  ⟨rfl, c7_update_forwards_without_id [("id", Json.str "c1"), ("content", Json.str "hello")]
    "c1" rfl⟩

/-- C8: on a POST to /message, a missing X-Session-Id header yields a 400
error body with no message forwarded and the session map unchanged; a
nonempty header naming an unknown session yields a 404 error body, again with
no forward and the map unchanged; a header naming a live session has the
parsed JSON-RPC body forwarded into exactly that session (and no other) with
a success response returned. -/
theorem c8_message_routing (sessions : List (String × Nat)) (req : MessageReq) :
    (req.sessionHeader = none →
      handleMessagePost sessions req =
        ⟨400, Json.obj [("error", Json.str "Missing X-Session-Id header")], [], sessions⟩) ∧
    (∀ sid, req.sessionHeader = some sid → sid ≠ "" → sessions.lookup sid = none →
      handleMessagePost sessions req =
        ⟨404, Json.obj [("error", Json.str "Session not found or expired")], [], sessions⟩) ∧
    (∀ sid t msg, req.sessionHeader = some sid → sid ≠ "" → sessions.lookup sid = some t →
      req.body = .ok msg →
      handleMessagePost sessions req =
        ⟨200, Json.obj [("success", Json.bool true)], [(sid, msg)], sessions⟩ ∧
      ∀ p ∈ (handleMessagePost sessions req).forwards, p.1 = sid) := by
  refine ⟨?_, ?_, ?_⟩
  · intro hnone
    simp [handleMessagePost, hnone, jsTruthy]
  · intro sid hsid hne hlook
    simp [handleMessagePost, hsid, jsTruthy, hne, hlook]
  · intro sid t msg hsid hne hlook hbody
    have hout : handleMessagePost sessions req =
        ⟨200, Json.obj [("success", Json.bool true)], [(sid, msg)], sessions⟩ := by
      simp [handleMessagePost, hsid, jsTruthy, hne, hlook, hbody]
    refine ⟨hout, ?_⟩
    intro p hp
    rw [hout] at hp
    simp only [List.mem_singleton] at hp
    simp [hp]

/-- Witness for C8 at a single-session map, forwarding a null message. -/
theorem c8_message_routing_witness :
    (MessageReq.mk (some "s1") (.ok Json.null)).sessionHeader = some "s1" ∧
    ("s1" : String) ≠ "" ∧
    ([("s1", 0)] : List (String × Nat)).lookup "s1" = some 0 ∧
    (MessageReq.mk (some "s1") (.ok Json.null)).body = .ok Json.null ∧
    (handleMessagePost [("s1", 0)] ⟨some "s1", .ok Json.null⟩ =
      ⟨200, Json.obj [("success", Json.bool true)], [("s1", Json.null)], [("s1", 0)]⟩ ∧
     ∀ p ∈ (handleMessagePost [("s1", 0)] ⟨some "s1", .ok Json.null⟩).forwards, p.1 = "s1") :=
  ⟨rfl, by decide, rfl, rfl,
    (c8_message_routing [("s1", 0)] ⟨some "s1", .ok Json.null⟩).2.2
      "s1" 0 Json.null rfl (by decide) rfl rfl⟩

/-- C9: the client slot is module-global: every createServer call overwrites
it, so after any sequence of session creations the slot holds the client of
the most recent one and every handler resolves getMochiClient to it; when the
slot was never set, getMochiClient throws a plain Error that is not a
MochiApiError, and a tool handler run in that state propagates the thrown
error instead of producing a tool response. -/
theorem c9_global_client_slot :
    (∀ (s : Option MochiClient) (k : String), createServer k s = some (createMochiClient k)) ∧
    (∀ (init : Option MochiClient) (keys : List String) (k : String),
      getMochiClient (runSessions init (keys ++ [k])) = .ok (createMochiClient k)) ∧
    getMochiClient none =
      .error (.jsError "MochiClient not initialized. Call setMochiClient() first.") ∧
    (∀ statusCode errors message,
      (JsThrown.jsError "MochiClient not initialized. Call setMochiClient() first.") ≠
        .mochiApiError statusCode errors message) ∧
    (∀ r : HttpResponse, list_cards_handler none r =
      .error (.jsError "MochiClient not initialized. Call setMochiClient() first.")) := by
  refine ⟨?_, ?_, rfl, ?_, ?_⟩
  · intro s k
    rfl
  · intro init keys k
    simp [runSessions, List.foldl_append, createServer, setMochiClient, getMochiClient]
  · intro statusCode errors message h
    cases h
  · intro r
    rfl

/-- C10: a supplied but empty base64-data string is falsy, so the base64
branch is not taken: with a nonempty file-path the handler behaves exactly as
if base64-data were absent, and with no file-path it returns the
must-be-provided error even though base64-data was supplied. -/
theorem c10_empty_base64 (c : MochiClient) (bunAvailable : Bool)
    (fileExists : String → Bool) (fileBytes atobBytes : String → List Nat)
    (cardId filename fp : String) (ct : Option String) :
    (fp ≠ "" →
      add_attachment_handler (some c) bunAvailable fileExists fileBytes atobBytes
        ⟨cardId, some fp, some "", ct, filename⟩ =
      add_attachment_handler (some c) bunAvailable fileExists fileBytes atobBytes
        ⟨cardId, some fp, none, ct, filename⟩) ∧
    add_attachment_handler (some c) bunAvailable fileExists fileBytes atobBytes
      ⟨cardId, none, some "", ct, filename⟩ =
      .ok (.respond ⟨[some "Error: Either file-path or base64-data must be provided"], true⟩) := by
  constructor
  · intro hfp
    simp [add_attachment_handler, getMochiClient, add_attachment_action, jsTruthy]
  · simp [add_attachment_handler, getMochiClient, add_attachment_action, jsTruthy]

/-- Witness for C10 at a concrete nonempty file path. -/
theorem c10_empty_base64_witness :
    (("/tmp/a.png" : String) ≠ "") ∧
    (add_attachment_handler (some ⟨"key"⟩) true (fun _ => true) (fun _ => [7])
        (fun _ => []) ⟨"c1", some "/tmp/a.png", some "", none, "a.png"⟩ =
      add_attachment_handler (some ⟨"key"⟩) true (fun _ => true) (fun _ => [7])
        (fun _ => []) ⟨"c1", some "/tmp/a.png", none, none, "a.png"⟩) ∧
    add_attachment_handler (some ⟨"key"⟩) true (fun _ => true) (fun _ => [7])
      (fun _ => []) ⟨"c1", none, some "", none, "a.png"⟩ =
      .ok (.respond ⟨[some "Error: Either file-path or base64-data must be provided"], true⟩) :=
  ⟨by decide,
    (c10_empty_base64 ⟨"key"⟩ true (fun _ => true) (fun _ => [7]) (fun _ => [])
      "c1" "a.png" "/tmp/a.png" none).1 (by decide),
    (c10_empty_base64 ⟨"key"⟩ true (fun _ => true) (fun _ => [7]) (fun _ => [])
      "c1" "a.png" "/tmp/a.png" none).2⟩

end MochiMCP
